import Mathlib

/-!
Chat widget (`frontend/src/App.js`): conversation controller and data renderer

A shallow embedding of the two pieces of `App.js` that carry behaviour:

* `handleSendMessage`, the asynchronous submit handler, together with the
  React state it reads and writes (`messages`, `inputValue`, `isLoading`);
* `renderData`, the function turning the `data` field of a message into a
  table.

JavaScript strings are sequences of UTF-16 code units, so they are lists of
natural numbers here; JavaScript values are an inductive type with one
constructor per runtime shape the code distinguishes.  Exceptions are the
error side of `Except`.
-/

namespace Chatbot

/-! ## JavaScript strings -/

/-- A JavaScript string: its sequence of UTF-16 code units. -/
abbrev JsString := List Nat

/-- The UTF-16 code units of one Unicode scalar value. -/
def utf16Char (c : Char) : List Nat :=
  if c.toNat < 65536 then [c.toNat]
  else [55296 + (c.toNat - 65536) / 1024, 56320 + (c.toNat - 65536) % 1024]

/-- The JavaScript string written by a string literal. -/
def utf16 (s : String) : JsString :=
  s.data.flatMap utf16Char

/-- The code units that `String.prototype.trim` strips: ECMAScript `WhiteSpace`
(TAB, VT, FF, SP, NBSP, ZWNBSP and the other space separators) and
`LineTerminator` (LF, CR, LS, PS). -/
def isWhiteSpace (u : Nat) : Bool :=
  u == 9 || u == 10 || u == 11 || u == 12 || u == 13 || u == 32 || u == 160 ||
  u == 5760 || (8192 ≤ u && u ≤ 8202) || u == 8232 || u == 8233 || u == 8239 ||
  u == 8287 || u == 12288 || u == 65279

/-- The method `String.prototype.trim`: the string without its leading and
trailing white space. -/
def trim (s : JsString) : JsString :=
  ((s.dropWhile isWhiteSpace).reverse.dropWhile isWhiteSpace).reverse

/-- The call `key.replace(/_/g, ' ')`: every underscore becomes a space. -/
def replaceUnderscores (s : JsString) : JsString :=
  s.map (fun u => if u = 95 then 32 else u)

/-- An upper-casing function that agrees with `String.prototype.toUpperCase`
on strings of Basic Latin characters: `a`..`z` become `A`..`Z`, every other
code unit is kept.  The renderer below takes the upper-casing function as an
argument; this one instantiates it on concrete ASCII payloads. -/
def asciiUpper (s : JsString) : JsString :=
  s.map (fun u => if 97 ≤ u ∧ u ≤ 122 then u - 32 else u)

/-- A thrown JavaScript exception. -/
inductive JsError where
  | typeError : JsError
  | uriError : JsError
  | requestFailed : JsError
  deriving DecidableEq, Repr

/-- A leading (high) surrogate code unit, `0xD800`..`0xDBFF`. -/
def isHighSurrogate (u : Nat) : Bool :=
  55296 ≤ u && u ≤ 56319

/-- A trailing (low) surrogate code unit, `0xDC00`..`0xDFFF`. -/
def isLowSurrogate (u : Nat) : Bool :=
  56320 ≤ u && u ≤ 57343

/-- The code units `encodeURIComponent` leaves as they are: the ASCII letters
and digits and the marks `- _ . ! ~ * ' ( )`. -/
def isUriUnreserved (u : Nat) : Bool :=
  (65 ≤ u && u ≤ 90) || (97 ≤ u && u ≤ 122) || (48 ≤ u && u ≤ 57) ||
  u == 45 || u == 95 || u == 46 || u == 33 || u == 126 || u == 42 || u == 39 ||
  u == 40 || u == 41

/-- The UTF-8 octets of a code point. -/
def utf8Octets (cp : Nat) : List Nat :=
  if cp < 128 then [cp]
  else if cp < 2048 then [192 + cp / 64, 128 + cp % 64]
  else if cp < 65536 then [224 + cp / 4096, 128 + cp / 64 % 64, 128 + cp % 64]
  else [240 + cp / 262144, 128 + cp / 4096 % 64, 128 + cp / 64 % 64, 128 + cp % 64]

/-- The code unit of an upper-case hexadecimal digit. -/
def hexDigit (n : Nat) : Nat :=
  if n < 10 then 48 + n else 55 + n

/-- The escape `%XX` of one octet. -/
def percentEscape (octet : Nat) : List Nat :=
  [37, hexDigit (octet / 16), hexDigit (octet % 16)]

/-- The escapes of the UTF-8 octets of a code point. -/
def escapeCodePoint (cp : Nat) : List Nat :=
  (utf8Octets cp).flatMap percentEscape

/-- The function `encodeURIComponent`: unreserved code units are kept, every
other code point is replaced by the escapes of its UTF-8 octets, and a
surrogate that is not part of a pair throws a `URIError`. -/
def encodeURIComponent : JsString → Except JsError JsString
  | [] => .ok []
  | [u] =>
      if isUriUnreserved u then .ok [u]
      else if isHighSurrogate u || isLowSurrogate u then .error .uriError
      else .ok (escapeCodePoint u)
  | u :: v :: rest =>
      if isUriUnreserved u then
        match encodeURIComponent (v :: rest) with
        | .error e => .error e
        | .ok tail => .ok (u :: tail)
      else if isHighSurrogate u then
        if isLowSurrogate v then
          match encodeURIComponent rest with
          | .error e => .error e
          | .ok tail =>
              .ok (escapeCodePoint ((u - 55296) * 1024 + (v - 56320) + 65536) ++ tail)
        else .error .uriError
      else if isLowSurrogate u then .error .uriError
      else
        match encodeURIComponent (v :: rest) with
        | .error e => .error e
        | .ok tail => .ok (escapeCodePoint u ++ tail)

/-! ## JavaScript values -/

/-- A JavaScript value as the widget meets it: the payload of a reply after
JSON decoding, or `undefined` for an absent field.  An object is the list of
its own enumerable entries in the order `Object.keys` enumerates them.  A
number is represented by an integer: the code only tests a number for being
falsy (zero) and otherwise passes it on unchanged. -/
inductive JsValue where
  | undefined : JsValue
  | null : JsValue
  | bool (b : Bool) : JsValue
  | num (n : Int) : JsValue
  | str (s : JsString) : JsValue
  | arr (items : List JsValue) : JsValue
  | obj (entries : List (JsString × JsValue)) : JsValue

/-- JavaScript truthiness (`ToBoolean`), as used by `!data` and `||`. -/
def isTruthy : JsValue → Bool
  | .undefined => false
  | .null => false
  | .bool b => b
  | .num n => n != 0
  | .str s => !s.isEmpty
  | .arr _ => true
  | .obj _ => true

/-- The test `typeof data === 'object'`. -/
def isTypeofObject : JsValue → Bool
  | .null => true
  | .arr _ => true
  | .obj _ => true
  | _ => false

/-- The decimal index keys `"0"`, ..., `"n-1"` of an array or string of
length `n`. -/
def indexKeys (n : Nat) : List JsString :=
  (List.range n).map (fun i => utf16 (Nat.repr i))

/-- The call `Object.keys(v)`: the own enumerable string keys of `v`.  It
throws a `TypeError` on `undefined` and `null`; a number or a boolean has
none; a string and an array have their indices. -/
def objectKeys : JsValue → Except JsError (List JsString)
  | .undefined => .error .typeError
  | .null => .error .typeError
  | .bool _ => .ok []
  | .num _ => .ok []
  | .str s => .ok (indexKeys s.length)
  | .arr items => .ok (indexKeys items.length)
  | .obj entries => .ok (entries.map Prod.fst)

/-- The call `Object.values(v)`: the values of the own enumerable string keys
of `v`, in the order of `Object.keys`.  It throws a `TypeError` on `undefined`
and `null`; the values of a string are its one-code-unit substrings. -/
def objectValues : JsValue → Except JsError (List JsValue)
  | .undefined => .error .typeError
  | .null => .error .typeError
  | .bool _ => .ok []
  | .num _ => .ok []
  | .str s => .ok (s.map (fun u => JsValue.str [u]))
  | .arr items => .ok items
  | .obj entries => .ok (entries.map Prod.snd)

/-- The call `Object.entries(v)`, as `objectKeys` and `objectValues`. -/
def objectEntries : JsValue → Except JsError (List (JsString × JsValue))
  | .undefined => .error .typeError
  | .null => .error .typeError
  | .bool _ => .ok []
  | .num _ => .ok []
  | .str s => .ok ((indexKeys s.length).zip (s.map (fun u => JsValue.str [u])))
  | .arr items => .ok ((indexKeys items.length).zip items)
  | .obj entries => .ok entries

/-- The expression `data[0] || {}` for the items of an array `data`. -/
def firstOrEmpty (items : List JsValue) : JsValue :=
  match items with
  | [] => .obj []
  | x :: _ => if isTruthy x then x else .obj []

/-! ## The renderer -/

/-- What `renderData` returns: `null` (no table), the table with a header row
and one body row per element, or the table with one label/value row per
entry.  Header labels and cells are kept as the values placed in the `th` and
`td` elements. -/
inductive TableShape where
  | none : TableShape
  | recordList (columns : List JsString) (rows : List (List JsValue)) : TableShape
  | keyValue (pairs : List (JsString × JsValue)) : TableShape

/-- The header label of a key: `key.replace(/_/g, ' ').toUpperCase()`, with
`toUpperCase` passed as `upper`. -/
def label (upper : JsString → JsString) (key : JsString) : JsString :=
  upper (replaceUnderscores key)

/-- The body rows `data.map(item => Object.values(item))`: one row per item,
in item order; the first item on which `Object.values` throws aborts the
rendering with that exception. -/
def bodyRows : List JsValue → Except JsError (List (List JsValue))
  | [] => .ok []
  | item :: rest =>
      match objectValues item with
      | .error e => .error e
      | .ok row =>
          match bodyRows rest with
          | .error e => .error e
          | .ok rows => .ok (row :: rows)

/-- The function `renderData` of `App.js`: `null` for a falsy `data`; for an
array the header built from `Object.keys(data[0] || {})` and then one row
`Object.values(item)` per item; for any other value of type `object` one row
per entry of `Object.entries(data)`; `null` otherwise. -/
def renderData (upper : JsString → JsString) (data : JsValue) :
    Except JsError TableShape :=
  if !isTruthy data then .ok .none
  else
    match data with
    | .arr items =>
        match objectKeys (firstOrEmpty items) with
        | .error e => .error e
        | .ok keys =>
            match bodyRows items with
            | .error e => .error e
            | .ok rows => .ok (.recordList (keys.map (label upper)) rows)
    | _ =>
        if isTypeofObject data then
          match objectEntries data with
          | .error e => .error e
          | .ok entries =>
              .ok (.keyValue (entries.map (fun kv => (label upper kv.1, kv.2))))
        else .ok .none

/-- Whether a value is `undefined` or `null`, the two values on which
`Object.keys` and `Object.values` throw. -/
def isNullish : JsValue → Bool
  | .undefined => true
  | .null => true
  | _ => false

/-- The keys `Object.keys(v)` returns where it returns. -/
def ownKeys (v : JsValue) : List JsString :=
  match objectKeys v with
  | .ok keys => keys
  | .error _ => []

/-- The values `Object.values(v)` returns where it returns. -/
def ownValues (v : JsValue) : List JsValue :=
  match objectValues v with
  | .ok values => values
  | .error _ => []

/-- The number of index keys of a value: the length of a string or of an
array, zero for any other value. -/
def indexCount : JsValue → Nat
  | .str s => s.length
  | .arr items => items.length
  | _ => 0

/-- Whether a value is a mapping: an object that is not an array. -/
def isMapping : JsValue → Bool
  | .obj _ => true
  | _ => false

/-- The payload `[{"a":1,"b":2},{"b":4,"a":3}]`. -/
def swappedRecords : JsValue :=
  .arr [ .obj [(utf16 "a", .num 1), (utf16 "b", .num 2)],
         .obj [(utf16 "b", .num 4), (utf16 "a", .num 3)] ]

/-- The items of the payload `[{"a":1,"b":2},{"a":3,"b":4}]`. -/
def alignedItems : List JsValue :=
  [ .obj [(utf16 "a", .num 1), (utf16 "b", .num 2)],
    .obj [(utf16 "a", .num 3), (utf16 "b", .num 4)] ]

/-- The payload `{"order_id":12345,"status":"shipped"}`. -/
def orderStatus : JsValue :=
  .obj [(utf16 "order_id", .num 12345), (utf16 "status", .str (utf16 "shipped"))]

/-! ## The conversation controller -/

/-- A message of the log: the object literals `userMessage`, `botMessage`,
`errorMessage` and the two welcome messages. -/
structure Message where
  id : Nat
  text : JsString
  isUser : Bool
  data : JsValue

/-- The React state of `App`: `messages`, `inputValue` and `isLoading`. -/
structure State where
  messages : List Message
  inputValue : JsString
  isLoading : Bool

/-- The body `response.data` of a resolved request: the reply text
`response.data.response` and the payload `response.data.data` (`undefined`
when the field is absent). -/
structure Response where
  response : JsString
  data : JsValue

/-- The two messages set by the mount effect. -/
def welcomeMessages : List Message :=
  [ { id := 1,
      text := utf16 "Hello! I'm your E-commerce Customer Support Chatbot. I can help you with:",
      isUser := false, data := .null },
    { id := 2,
      text := utf16 "• Top selling products\n• Order status\n• Product stock levels\n\nTry asking me something!",
      isUser := false, data := .null } ]

/-- The state once the component is mounted: the `useState` initial values
with the log replaced by the welcome messages. -/
def initialState : State :=
  { messages := welcomeMessages, inputValue := [], isLoading := false }

/-- The text of `errorMessage`. -/
def errorText : JsString :=
  utf16 "Sorry, I'm having trouble connecting to the server. Please try again later."

/-- The `onChange` handler of the input field and `handleExampleClick`:
`setInputValue(text)`. -/
def setInputValue (s : State) (text : JsString) : State :=
  { s with inputValue := text }

/-- The template literal of the request:
`/chatbot/query?query=` followed by `encodeURIComponent(inputValue)`; it
throws where `encodeURIComponent` does. -/
def requestUrl (draft : JsString) : Except JsError JsString :=
  match encodeURIComponent draft with
  | .error e => .error e
  | .ok encoded => .ok (utf16 "/chatbot/query?query=" ++ encoded)

/-- The part of `handleSendMessage` that runs before the `try` statement.
`none` is the early `return` of the guard `!inputValue.trim() || isLoading`;
otherwise the state after `setMessages`, `setInputValue('')` and
`setIsLoading(true)`, together with the value of `inputValue` that the rest of
the handler still refers to.  `now` is the value read from `Date.now()`. -/
def handleSendMessageStart (s : State) (now : Nat) : Option (State × JsString) :=
  if (trim s.inputValue).isEmpty || s.isLoading then none
  else
    let userMessage : Message :=
      { id := now, text := s.inputValue, isUser := true, data := .null }
    some ({ messages := s.messages ++ [userMessage],
            inputValue := [],
            isLoading := true },
          s.inputValue)

/-- The `try` block of `handleSendMessage`, as the list of request URLs passed
to `axios.get` and the outcome of the block.  Building the URL comes first:
if `encodeURIComponent(inputValue)` throws, no request is made.  Otherwise the
request is made and settles as `result`: a rejected request throws, a
resolved one appends `botMessage`. -/
def tryBlock (s : State) (draft : JsString) (now : Nat)
    (result : Except JsError Response) : List JsString × Except JsError State :=
  match requestUrl draft with
  | .error e => ([], .error e)
  | .ok url =>
      match result with
      | .error e => ([url], .error e)
      | .ok response =>
          let botMessage : Message :=
            { id := now + 1, text := response.response, isUser := false,
              data := response.data }
          ([url], .ok { s with messages := s.messages ++ [botMessage] })

/-- The `catch` block of `handleSendMessage`: appends `errorMessage`. -/
def catchBlock (s : State) (now : Nat) : State :=
  let errorMessage : Message :=
    { id := now + 1, text := errorText, isUser := false, data := .null }
  { s with messages := s.messages ++ [errorMessage] }

/-- The `try` statement of `handleSendMessage`: the `try` block, the `catch`
block on an exception, and `setIsLoading(false)` in `finally`.  An exception
of the `try` block is consumed by `catch`; the result is an `Except` so that
an escaping exception would show.  Returns the state and the request URLs
passed to `axios.get`. -/
def handleSendMessageSettle (s : State) (draft : JsString) (now : Nat)
    (result : Except JsError Response) : Except JsError (State × List JsString) :=
  let tried := tryBlock s draft now result
  let afterCatch : Except JsError State :=
    match tried.2 with
    | .ok s1 => .ok s1
    | .error _ => .ok (catchBlock s now)
  match afterCatch with
  | .ok s2 => .ok ({ s2 with isLoading := false }, tried.1)
  | .error e => .error e

/-- One call of `handleSendMessage` run to completion: `now1` and `now2` are
the two readings of `Date.now()` (user message, reply message) and `result` is
how the request settles if it is made.  Returns the final state and the list
of request URLs passed to `axios.get`. -/
def handleSendMessage (s : State) (now1 now2 : Nat)
    (result : Except JsError Response) : Except JsError (State × List JsString) :=
  match handleSendMessageStart s now1 with
  | none => .ok (s, [])
  | some (s1, draft) => handleSendMessageSettle s1 draft now2 result

/-- The request URLs a call of `handleSendMessage` with the draft `draft`
passes to `axios.get` once the guard is passed: the one URL of the draft, or
none when building the URL throws. -/
def requestsSent (draft : JsString) : List JsString :=
  match requestUrl draft with
  | .ok url => [url]
  | .error _ => []

/-- One submit cycle of a session: the user fills the input field with
`draft`, then `handleSendMessage` runs with the clock readings `now1`, `now2`
and the request outcome `result`. -/
structure Cycle where
  draft : JsString
  now1 : Nat
  now2 : Nat
  result : Except JsError Response

/-- Runs one cycle: `setInputValue(draft)` then `handleSendMessage()`. -/
def runCycle (s : State) (c : Cycle) : Except JsError State :=
  match handleSendMessage (setInputValue s c.draft) c.now1 c.now2 c.result with
  | .ok (s1, _) => .ok s1
  | .error e => .error e

/-- Runs the cycles of a session in order. -/
def runCycles (s : State) : List Cycle → Except JsError State
  | [] => .ok s
  | c :: rest =>
      match runCycle s c with
      | .ok s1 => runCycles s1 rest
      | .error e => .error e

/-- The clock readings of a list of cycles in the order they are taken. -/
def clockReadings (cycles : List Cycle) : List Nat :=
  cycles.flatMap (fun c => [c.now1, c.now2])

/-- The log entries a failed cycle appends: the user message and the apology. -/
def failedCycleMessages (c : Cycle) : List Message :=
  [{ id := c.now1, text := c.draft, isUser := true, data := .null },
   { id := c.now2 + 1, text := errorText, isUser := false, data := .null }]

/-- Two failed submissions in a row. -/
def twoFailures : List Cycle :=
  [ { draft := utf16 "Show me the status of order ID 12345",
      now1 := 1700000000000, now2 := 1700000030000,
      result := .error .requestFailed },
    { draft := utf16 "  again  ",
      now1 := 1700000040000, now2 := 1700000070000,
      result := .error .requestFailed } ]

/-- The ids of the log, in log order (the order of creation). -/
def messageIds (s : State) : List Nat :=
  s.messages.map Message.id

/-- A session of two answered questions in which the second question is
submitted one millisecond after the first reply arrived. -/
def quickFollowUp : List Cycle :=
  [ { draft := utf16 "What are the top 5 most sold products?",
      now1 := 1700000000000, now2 := 1700000000250,
      result := .ok { response := utf16 "Here they are", data := .arr [] } },
    { draft := utf16 "Show me the status of order ID 12345",
      now1 := 1700000000251, now2 := 1700000000600,
      result := .ok { response := utf16 "Shipped", data := .null } } ]

/-- A session of two answered questions in which the second question is
submitted within the clock tick in which the first reply arrived. -/
def sameTickFollowUp : List Cycle :=
  [ { draft := utf16 "What are the top 5 most sold products?",
      now1 := 1700000000000, now2 := 1700000000250,
      result := .ok { response := utf16 "Here they are", data := .arr [] } },
    { draft := utf16 "Show me the status of order ID 12345",
      now1 := 1700000000250, now2 := 1700000000600,
      result := .ok { response := utf16 "Shipped", data := .null } } ]

/-! ## Lemmas on the controller -/

theorem handleSendMessageStart_rejected (s : State) (now : Nat)
    (h : trim s.inputValue = [] ∨ s.isLoading = true) :
    handleSendMessageStart s now = none := by
  unfold handleSendMessageStart
  rcases h with h | h <;> simp [h]

theorem handleSendMessageStart_accepted (s : State) (now : Nat)
    (hp : s.isLoading = false) (hd : trim s.inputValue ≠ []) :
    handleSendMessageStart s now =
      some ({ messages := s.messages ++
                [{ id := now, text := s.inputValue, isUser := true, data := .null }],
              inputValue := [], isLoading := true },
            s.inputValue) := by
  unfold handleSendMessageStart
  simp [hp, hd]

theorem handleSendMessage_ok (s : State) (now1 now2 : Nat) (r : Response)
    (url : JsString)
    (hp : s.isLoading = false) (hd : trim s.inputValue ≠ [])
    (hq : requestUrl s.inputValue = .ok url) :
    handleSendMessage s now1 now2 (.ok r) =
      .ok ({ messages := s.messages ++
               [{ id := now1, text := s.inputValue, isUser := true, data := .null },
                { id := now2 + 1, text := r.response, isUser := false, data := r.data }],
             inputValue := [], isLoading := false },
           [url]) := by
  simp [handleSendMessage, handleSendMessageStart_accepted s now1 hp hd,
    handleSendMessageSettle, tryBlock, hq]

theorem handleSendMessage_error (s : State) (now1 now2 : Nat) (e : JsError)
    (hp : s.isLoading = false) (hd : trim s.inputValue ≠ []) :
    handleSendMessage s now1 now2 (.error e) =
      .ok ({ messages := s.messages ++
               [{ id := now1, text := s.inputValue, isUser := true, data := .null },
                { id := now2 + 1, text := errorText, isUser := false, data := .null }],
             inputValue := [], isLoading := false },
           requestsSent s.inputValue) := by
  cases hq : requestUrl s.inputValue <;>
    simp [handleSendMessage, handleSendMessageStart_accepted s now1 hp hd,
      handleSendMessageSettle, tryBlock, catchBlock, requestsSent, hq]

theorem handleSendMessage_uriError (s : State) (now1 now2 : Nat)
    (result : Except JsError Response) (e : JsError)
    (hp : s.isLoading = false) (hd : trim s.inputValue ≠ [])
    (hq : requestUrl s.inputValue = .error e) :
    handleSendMessage s now1 now2 result =
      .ok ({ messages := s.messages ++
               [{ id := now1, text := s.inputValue, isUser := true, data := .null },
                { id := now2 + 1, text := errorText, isUser := false, data := .null }],
             inputValue := [], isLoading := false },
           []) := by
  simp [handleSendMessage, handleSendMessageStart_accepted s now1 hp hd,
    handleSendMessageSettle, tryBlock, catchBlock, hq]

theorem handleSendMessage_accepted_log (s : State) (now1 now2 : Nat)
    (result : Except JsError Response)
    (hp : s.isLoading = false) (hd : trim s.inputValue ≠ []) :
    ∃ (bot : Message) (s1 : State) (sent : List JsString),
      handleSendMessage s now1 now2 result = .ok (s1, sent) ∧
      s1.messages = s.messages ++
        [{ id := now1, text := s.inputValue, isUser := true, data := .null }, bot] := by
  cases result with
  | error e => exact ⟨_, _, _, handleSendMessage_error s now1 now2 e hp hd, rfl⟩
  | ok r =>
      cases hq : requestUrl s.inputValue with
      | ok url => exact ⟨_, _, _, handleSendMessage_ok s now1 now2 r url hp hd hq, rfl⟩
      | error e =>
          exact ⟨_, _, _, handleSendMessage_uriError s now1 now2 (.ok r) e hp hd hq, rfl⟩

theorem runCycles_failed (cycles : List Cycle) :
    ∀ s : State, s.isLoading = false →
      (∀ c ∈ cycles, trim c.draft ≠ [] ∧ ∃ e, c.result = .error e) →
      ∃ s1, runCycles s cycles = .ok s1 ∧ s1.isLoading = false ∧
        s1.messages = s.messages ++ cycles.flatMap failedCycleMessages := by
  induction cycles with
  | nil => intro s hp _; exact ⟨s, rfl, hp, by simp⟩
  | cons c rest ih =>
      intro s hp hc
      obtain ⟨hd, e, he⟩ := hc c (List.mem_cons_self _ _)
      have hstep : runCycle s c =
          .ok { messages := s.messages ++ failedCycleMessages c,
                inputValue := [], isLoading := false } := by
        have := handleSendMessage_error (setInputValue s c.draft) c.now1 c.now2 e
          (by simpa [setInputValue] using hp) (by simpa [setInputValue] using hd)
        unfold runCycle
        rw [he, this]
        simp [setInputValue, failedCycleMessages]
      obtain ⟨s1, h1, h2, h3⟩ := ih
        { messages := s.messages ++ failedCycleMessages c, inputValue := [], isLoading := false }
        rfl (fun c1 hc1 => hc c1 (List.mem_cons_of_mem _ hc1))
      refine ⟨s1, ?_, h2, ?_⟩
      · simp [runCycles, hstep, h1]
      · simp [h3, List.flatMap_cons, List.append_assoc]

theorem botCount_failed (cycles : List Cycle) :
    ((cycles.flatMap failedCycleMessages).filter (fun m => !m.isUser)).length =
      cycles.length := by
  induction cycles with
  | nil => rfl
  | cons c rest ih =>
      simp only [List.flatMap_cons, List.filter_append, List.length_append, ih]
      simp [failedCycleMessages]
      omega

/-! ## The claims on the controller -/

/-- C1: when the trimmed draft is empty or a request is pending, `submit()`
(`handleSendMessage`) changes nothing: the guard returns early, the state
(log, draft input, pending flag) is the one before, and no query is sent. -/
theorem submit_noop_of_blank_or_pending (s : State) (now1 now2 : Nat)
    (result : Except JsError Response)
    (h : trim s.inputValue = [] ∨ s.isLoading = true) :
    handleSendMessageStart s now1 = none ∧
      handleSendMessage s now1 now2 result = .ok (s, []) := by
  have h0 := handleSendMessageStart_rejected s now1 h
  exact ⟨h0, by simp [handleSendMessage, h0]⟩

theorem submit_noop_of_blank_or_pending_witness :
    (trim (utf16 "   ") = [] ∨ false = true) ∧
      handleSendMessageStart
          { messages := welcomeMessages, inputValue := utf16 "   ", isLoading := false }
          1700000000000 = none ∧
      handleSendMessage
          { messages := welcomeMessages, inputValue := utf16 "   ", isLoading := false }
          1700000000000 1700000000300 (.ok { response := utf16 "ok", data := .null }) =
        .ok ({ messages := welcomeMessages, inputValue := utf16 "   ",
               isLoading := false }, []) :=
  ⟨Or.inl (by decide),
   submit_noop_of_blank_or_pending
     { messages := welcomeMessages, inputValue := utf16 "   ", isLoading := false }
     1700000000000 1700000000300 (.ok { response := utf16 "ok", data := .null })
     (Or.inl (by decide))⟩


/-- C2: an accepted `submit()` (no request pending, draft not blank) whose
query succeeds with reply `r.response` and payload `r.data` ends with the old
log followed by exactly one user message and then exactly one bot message
carrying that reply and that payload, with the pending flag cleared; the one
request made is the one to `url`.  A successful query result presupposes that
the request was made, that is, that building its URL did not throw: this is
the hypothesis `hq`. -/
theorem submit_success_appends_user_then_bot (s : State) (now1 now2 : Nat)
    (r : Response) (url : JsString)
    (hp : s.isLoading = false) (hd : trim s.inputValue ≠ [])
    (hq : requestUrl s.inputValue = .ok url) :
    handleSendMessage s now1 now2 (.ok r) =
      .ok ({ messages := s.messages ++
               [{ id := now1, text := s.inputValue, isUser := true, data := .null },
                { id := now2 + 1, text := r.response, isUser := false, data := r.data }],
             inputValue := [], isLoading := false },
           [url]) :=
  handleSendMessage_ok s now1 now2 r url hp hd hq

set_option maxRecDepth 100000 in
theorem submit_success_appends_user_then_bot_witness :
    false = false ∧ trim (utf16 "How many Classic T-Shirts are left in stock?") ≠ [] ∧
    requestUrl (utf16 "How many Classic T-Shirts are left in stock?") =
      .ok (utf16 "/chatbot/query?query=How%20many%20Classic%20T-Shirts%20are%20left%20in%20stock%3F") ∧
    handleSendMessage
        { messages := welcomeMessages,
          inputValue := utf16 "How many Classic T-Shirts are left in stock?",
          isLoading := false }
        1700000000000 1700000000300
        (.ok { response := utf16 "12 units left",
               data := .obj [(utf16 "product", .str (utf16 "Classic T-Shirt")),
                             (utf16 "stock", .num 12)] }) =
      .ok ({ messages := welcomeMessages ++
               [{ id := 1700000000000,
                  text := utf16 "How many Classic T-Shirts are left in stock?",
                  isUser := true, data := .null },
                { id := 1700000000301, text := utf16 "12 units left", isUser := false,
                  data := .obj [(utf16 "product", .str (utf16 "Classic T-Shirt")),
                                (utf16 "stock", .num 12)] }],
             inputValue := [], isLoading := false },
           [utf16 "/chatbot/query?query=How%20many%20Classic%20T-Shirts%20are%20left%20in%20stock%3F"]) :=
  ⟨rfl, by decide, rfl,
   submit_success_appends_user_then_bot
     { messages := welcomeMessages,
       inputValue := utf16 "How many Classic T-Shirts are left in stock?",
       isLoading := false }
     1700000000000 1700000000300
     { response := utf16 "12 units left",
       data := .obj [(utf16 "product", .str (utf16 "Classic T-Shirt")),
                     (utf16 "stock", .num 12)] }
     (utf16 "/chatbot/query?query=How%20many%20Classic%20T-Shirts%20are%20left%20in%20stock%3F")
     rfl (by decide) rfl⟩

/-- C3: an accepted `submit()` whose query fails returns normally (no
exception escapes) with the old log followed by the user message and exactly
one bot message with the fixed apology text and a `null` payload, and with the
pending flag cleared; this holds when the request is rejected and also when
building the request URL throws, in which case no request is made.  Hence any
number `n` of consecutive failed submissions of non-blank drafts, started with
no request pending, runs to completion, appends for each submission its user
message followed by one apology, `n` apology bot messages in all, and ends
with the pending flag cleared. -/
theorem failed_submissions_append_one_apology_each (s : State)
    (cycles : List Cycle) (hp : s.isLoading = false)
    (hc : ∀ c ∈ cycles, trim c.draft ≠ [] ∧ ∃ e, c.result = .error e) :
    (∀ (now1 now2 : Nat) (e : JsError), trim s.inputValue ≠ [] →
      handleSendMessage s now1 now2 (.error e) =
        .ok ({ messages := s.messages ++
                 [{ id := now1, text := s.inputValue, isUser := true, data := .null },
                  { id := now2 + 1,
                    text := utf16 "Sorry, I'm having trouble connecting to the server. Please try again later.",
                    isUser := false, data := .null }],
               inputValue := [], isLoading := false },
             requestsSent s.inputValue)) ∧
    (∀ (now1 now2 : Nat) (result : Except JsError Response) (e : JsError),
      trim s.inputValue ≠ [] → requestUrl s.inputValue = .error e →
      handleSendMessage s now1 now2 result =
        .ok ({ messages := s.messages ++
                 [{ id := now1, text := s.inputValue, isUser := true, data := .null },
                  { id := now2 + 1,
                    text := utf16 "Sorry, I'm having trouble connecting to the server. Please try again later.",
                    isUser := false, data := .null }],
               inputValue := [], isLoading := false },
             [])) ∧
    ∃ s1, runCycles s cycles = .ok s1 ∧ s1.isLoading = false ∧
      s1.messages = s.messages ++ cycles.flatMap failedCycleMessages ∧
      ((cycles.flatMap failedCycleMessages).filter (fun m => !m.isUser)).length =
        cycles.length ∧
      ∀ m ∈ cycles.flatMap failedCycleMessages, m.isUser = false →
        m.text = errorText ∧ m.data = .null := by
  refine ⟨fun now1 now2 e hd => handleSendMessage_error s now1 now2 e hp hd,
    fun now1 now2 result e hd hq =>
      handleSendMessage_uriError s now1 now2 result e hp hd hq, ?_⟩
  obtain ⟨s1, h1, h2, h3⟩ := runCycles_failed cycles s hp hc
  refine ⟨s1, h1, h2, h3, botCount_failed cycles, ?_⟩
  intro m hm hu
  simp only [List.mem_flatMap, failedCycleMessages] at hm
  obtain ⟨c, _, hmc⟩ := hm
  simp at hmc
  rcases hmc with rfl | rfl
  · simp at hu
  · exact ⟨rfl, rfl⟩

theorem failed_submissions_append_one_apology_each_witness :
    initialState.isLoading = false ∧
    (∀ c ∈ twoFailures, trim c.draft ≠ [] ∧ ∃ e, c.result = .error e) ∧
    ∃ s1, runCycles initialState twoFailures = .ok s1 ∧ s1.isLoading = false ∧
      s1.messages = initialState.messages ++ twoFailures.flatMap failedCycleMessages ∧
      ((twoFailures.flatMap failedCycleMessages).filter (fun m => !m.isUser)).length =
        twoFailures.length ∧
      ∀ m ∈ twoFailures.flatMap failedCycleMessages, m.isUser = false →
        m.text = errorText ∧ m.data = .null :=
  have hc : ∀ c ∈ twoFailures, trim c.draft ≠ [] ∧ ∃ e, c.result = .error e := by
    intro c hmem
    simp only [twoFailures, List.mem_cons, List.mem_singleton, List.not_mem_nil,
      or_false] at hmem
    rcases hmem with rfl | rfl
    · exact ⟨by decide, .requestFailed, rfl⟩
    · exact ⟨by decide, .requestFailed, rfl⟩
  ⟨rfl, hc,
   (failed_submissions_append_one_apology_each initialState twoFailures rfl hc).2.2⟩

/-- C8 (as amended): an accepted `submit()` appends a user message whose text
is the draft input exactly as it stands in the input field, surrounding white
space included; the draft is trimmed only for the emptiness test of the
guard. -/
theorem submit_user_text_is_raw_draft (s : State) (now1 now2 : Nat)
    (result : Except JsError Response)
    (hp : s.isLoading = false) (hd : trim s.inputValue ≠ []) :
    (handleSendMessageStart s now1).map Prod.fst =
      some { messages := s.messages ++
               [{ id := now1, text := s.inputValue, isUser := true, data := .null }],
             inputValue := [], isLoading := true } ∧
    ∃ (bot : Message) (s1 : State) (sent : List JsString),
      handleSendMessage s now1 now2 result = .ok (s1, sent) ∧
      s1.messages = s.messages ++
        [{ id := now1, text := s.inputValue, isUser := true, data := .null }, bot] := by
  refine ⟨?_, handleSendMessage_accepted_log s now1 now2 result hp hd⟩
  rw [handleSendMessageStart_accepted s now1 hp hd]
  rfl

theorem submit_user_text_is_raw_draft_witness :
    false = false ∧ trim (utf16 "  hi  ") ≠ [] ∧
    (handleSendMessageStart
        { messages := welcomeMessages, inputValue := utf16 "  hi  ", isLoading := false }
        1700000000000).map Prod.fst =
      some { messages := welcomeMessages ++
               [{ id := 1700000000000, text := utf16 "  hi  ", isUser := true,
                  data := .null }],
             inputValue := [], isLoading := true } :=
  ⟨rfl, by decide,
   (submit_user_text_is_raw_draft
     { messages := welcomeMessages, inputValue := utf16 "  hi  ", isLoading := false }
     1700000000000 1700000000300 (.error .requestFailed) rfl (by decide)).1⟩

/-- C8 (as stated) fails: submitting the draft `"  hi  "` is accepted and the
appended user message has the text `"  hi  "`, which is not the trimmed draft
`"hi"`. -/
theorem submit_user_text_not_trimmed :
    (handleSendMessageStart
        { messages := welcomeMessages, inputValue := utf16 "  hi  ", isLoading := false }
        1700000000000).map (fun p => (p.1.messages.drop 2).map Message.text) =
      some [utf16 "  hi  "] ∧
    trim (utf16 "  hi  ") = utf16 "hi" ∧
    utf16 "  hi  " ≠ trim (utf16 "  hi  ") :=
  ⟨rfl, by decide, by decide⟩

/-- C9 fails on the code.  With the non-decreasing clock readings of
`quickFollowUp` (the second question is sent one millisecond after the first
reply) the reply to the first question and the second user message both get
the id `1700000000251`, so the ids of the log are not pairwise distinct.  With
those of `sameTickFollowUp` (the second question is sent within the clock tick
of the first reply) the second user message gets an id below that of the
earlier reply, so the ids do not increase in order of creation. -/
theorem ids_collide_on_quick_follow_up :
    (clockReadings quickFollowUp).Pairwise (· ≤ ·) ∧
    (runCycles initialState quickFollowUp).map messageIds =
      .ok [1, 2, 1700000000000, 1700000000251, 1700000000251, 1700000000601] ∧
    ¬ [1, 2, 1700000000000, 1700000000251, 1700000000251, 1700000000601].Nodup ∧
    (clockReadings sameTickFollowUp).Pairwise (· ≤ ·) ∧
    (runCycles initialState sameTickFollowUp).map messageIds =
      .ok [1, 2, 1700000000000, 1700000000251, 1700000000250, 1700000000601] ∧
    ¬ [1, 2, 1700000000000, 1700000000251, 1700000000250,
        1700000000601].Pairwise (· < ·) :=
  ⟨by decide, rfl, by decide, by decide, rfl, by decide⟩

/-! ## Lemmas on the renderer -/

theorem bodyRows_of_no_nullish (items : List JsValue)
    (h : ∀ x ∈ items, isNullish x = false) :
    bodyRows items = .ok (items.map ownValues) := by
  induction items with
  | nil => rfl
  | cons x rest ih =>
      have hx := h x (List.mem_cons_self _ _)
      have hr := ih (fun y hy => h y (List.mem_cons_of_mem _ hy))
      cases x <;> simp_all [bodyRows, objectValues, ownValues, isNullish]

theorem objectKeys_of_not_nullish (v : JsValue) (h : isNullish v = false) :
    objectKeys v = .ok (ownKeys v) := by
  cases v <;> simp_all [objectKeys, ownKeys, isNullish]

theorem firstOrEmpty_not_nullish (items : List JsValue) :
    isNullish (firstOrEmpty items) = false := by
  cases items with
  | nil => rfl
  | cons x rest =>
      simp only [firstOrEmpty]
      by_cases ht : isTruthy x = true
      · rw [if_pos ht]
        cases x <;> simp_all [isTruthy, isNullish]
      · rw [if_neg ht]
        rfl

theorem objectKeys_firstOrEmpty (items : List JsValue) :
    objectKeys (firstOrEmpty items) = .ok (ownKeys (firstOrEmpty items)) :=
  objectKeys_of_not_nullish _ (firstOrEmpty_not_nullish items)

theorem renderData_arr (upper : JsString → JsString) (items : List JsValue)
    (h : ∀ x ∈ items, isNullish x = false) :
    renderData upper (.arr items) =
      .ok (.recordList ((ownKeys (firstOrEmpty items)).map (label upper))
        (items.map ownValues)) := by
  simp [renderData, isTruthy, objectKeys_firstOrEmpty, bodyRows_of_no_nullish items h]

theorem lookup_of_mem (es : List (JsString × JsValue))
    (hn : (es.map Prod.fst).Nodup) :
    ∀ kv ∈ es, es.lookup kv.1 = some kv.2 := by
  induction es with
  | nil => intro kv h; cases h
  | cons e rest ih =>
      intro kv hkv
      obtain ⟨k, v⟩ := e
      simp only [List.map_cons, List.nodup_cons] at hn
      rcases List.mem_cons.1 hkv with rfl | hmem
      · simp [List.lookup]
      · have hne : kv.1 ≠ k := by
          intro heq
          exact hn.1 (heq ▸ List.mem_map_of_mem Prod.fst hmem)
        have hb : (kv.1 == k) = false := by simpa using hne
        simp only [List.lookup, hb]
        exact ih hn.2 kv hmem

theorem values_eq_project (es : List (JsString × JsValue))
    (hn : (es.map Prod.fst).Nodup) :
    es.map Prod.snd =
      (es.map Prod.fst).map (fun k => (es.lookup k).getD .undefined) := by
  rw [List.map_map]
  apply List.map_congr_left
  intro kv hkv
  simp [lookup_of_mem es hn kv hkv]


theorem indexKeys_length (n : Nat) : (indexKeys n).length = n := by
  simp [indexKeys]

theorem ownKeys_firstOrEmpty_of_not_mapping (x : JsValue) (rest : List JsValue)
    (hm : isMapping x = false) :
    ownKeys (firstOrEmpty (x :: rest)) = indexKeys (indexCount x) := by
  cases x with
  | undefined => rfl
  | null => rfl
  | bool b => cases b <;> rfl
  | num n =>
      by_cases hn : n = 0
      · subst hn; rfl
      · have ht : isTruthy (.num n) = true := by simp [isTruthy, hn]
        simp only [firstOrEmpty, ht, if_true]
        rfl
  | str s =>
      cases s with
      | nil => rfl
      | cons u t => rfl
  | arr items => rfl
  | obj entries => simp [isMapping] at hm

/-! ## The claims on the renderer -/

/-- C4 (as stated) fails: for `[{"a":1,"b":2},{"b":4,"a":3}]` the renderer
returns the rows `[[1,2],[4,3]]`, the second row in that record's own key
order, and not the rows `[[1,2],[3,4]]` of the projection on the columns of
the first record. -/
theorem rows_not_projected_on_first_keys :
    renderData asciiUpper swappedRecords =
      .ok (.recordList [utf16 "A", utf16 "B"]
        [[.num 1, .num 2], [.num 4, .num 3]]) ∧
    ¬ ∃ columns, renderData asciiUpper swappedRecords =
      .ok (.recordList columns [[.num 1, .num 2], [.num 3, .num 4]]) := by
  have e : renderData asciiUpper swappedRecords =
      .ok (.recordList [utf16 "A", utf16 "B"]
        [[.num 1, .num 2], [.num 4, .num 3]]) := rfl
  refine ⟨e, ?_⟩
  rintro ⟨columns, h⟩
  rw [e] at h
  simp at h

/-- C4 (as amended): for a sequence payload with no `null` or `undefined`
element, the row of each element is the list of that element's own values in
the element's own key order (`Object.values`), under the header taken from
element 0.  For an element that is a mapping with distinct keys which are the
keys of the first element in the same order, this row is the projection on
the columns (cell `i` is the element's value for the `i`-th key of the first
element) and has as many cells as there are columns. -/
theorem rows_follow_own_key_order (upper : JsString → JsString)
    (items : List JsValue) (h : ∀ x ∈ items, isNullish x = false) :
    renderData upper (.arr items) =
      .ok (.recordList ((ownKeys (firstOrEmpty items)).map (label upper))
        (items.map ownValues)) ∧
    ∀ (first : List (JsString × JsValue)) (rest : List JsValue)
      (es : List (JsString × JsValue)),
      items = .obj first :: rest → JsValue.obj es ∈ items →
      es.map Prod.fst = first.map Prod.fst → (es.map Prod.fst).Nodup →
      ownValues (.obj es) =
        (first.map Prod.fst).map (fun k => (es.lookup k).getD .undefined) ∧
      (ownValues (.obj es)).length =
        ((ownKeys (firstOrEmpty items)).map (label upper)).length := by
  refine ⟨renderData_arr upper items h, ?_⟩
  intro first rest es hitems _ hkeys hn
  subst hitems
  constructor
  · rw [← hkeys]
    exact values_eq_project es hn
  · have h1 : ownValues (.obj es) = es.map Prod.snd := rfl
    have h2 : ownKeys (firstOrEmpty (.obj first :: rest)) = first.map Prod.fst := rfl
    rw [h1, h2, List.length_map, List.length_map, List.length_map]
    simpa using congrArg List.length hkeys

theorem rows_follow_own_key_order_witness :
    (∀ x ∈ alignedItems, isNullish x = false) ∧
    renderData asciiUpper (.arr alignedItems) =
      .ok (.recordList [utf16 "A", utf16 "B"]
        [[.num 1, .num 2], [.num 3, .num 4]]) :=
  have h : ∀ x ∈ alignedItems, isNullish x = false := by
    intro x hx
    simp only [alignedItems, List.mem_cons, List.mem_singleton, List.not_mem_nil,
      or_false] at hx
    rcases hx with rfl | rfl <;> rfl
  ⟨h, (rows_follow_own_key_order asciiUpper alignedItems h).1⟩

/-- C5 fails on the code at the sequence payload `[null]`: the header is built
(`data[0] || {}` has no keys) but `Object.values(null)` throws a `TypeError`
while the row is built, so no table is returned; the same happens when the
`null` comes after a record. -/
theorem renderData_throws_on_null_element (upper : JsString → JsString) :
    renderData upper (.arr [.null]) = .error .typeError ∧
    objectKeys (firstOrEmpty [.null]) = .ok [] ∧
    objectValues .null = .error .typeError ∧
    renderData upper (.arr [.obj [(utf16 "a", .num 1)], .null]) = .error .typeError ∧
    renderData upper (.arr []) = .ok (.recordList [] []) :=
  ⟨rfl, rfl, rfl, rfl, rfl⟩

/-- C6: a mapping payload is rendered as the key/value table with one pair per
entry, in the order of the entries; the label of a pair is the key with every
underscore replaced by a space and then upper-cased, its value is the value of
the entry unchanged.  For `{"order_id":12345,"status":"shipped"}` the pairs
are `("ORDER ID", 12345)` and `("STATUS", "shipped")`. -/
theorem mapping_rendered_as_key_value :
    (∀ (upper : JsString → JsString) (entries : List (JsString × JsValue)),
      renderData upper (.obj entries) =
        .ok (.keyValue
          (entries.map (fun kv => (upper (replaceUnderscores kv.1), kv.2))))) ∧
    renderData asciiUpper orderStatus =
      .ok (.keyValue [(utf16 "ORDER ID", .num 12345),
                      (utf16 "STATUS", .str (utf16 "shipped"))]) :=
  ⟨fun _ _ => rfl, rfl⟩

/-- C7 fails on the code in its totality part.  The renderer returns no table
for `undefined`, `null` and every boolean, number and string, and it returns
a table or throws (never no table) for a sequence or a mapping; but it is not
total: on the sequence payload `[{"order_id":12345},null]` it throws a
`TypeError`. -/
theorem renderData_none_on_scalars_but_not_total (upper : JsString → JsString) :
    renderData upper .undefined = .ok .none ∧
    renderData upper .null = .ok .none ∧
    (∀ b, renderData upper (.bool b) = .ok .none) ∧
    (∀ n, renderData upper (.num n) = .ok .none) ∧
    (∀ s, renderData upper (.str s) = .ok .none) ∧
    (∀ items, renderData upper (.arr items) ≠ .ok .none) ∧
    (∀ entries, renderData upper (.obj entries) ≠ .ok .none) ∧
    renderData upper (.arr [.obj [(utf16 "order_id", .num 12345)], .null]) =
      .error .typeError := by
  refine ⟨rfl, rfl, ?_, ?_, ?_, ?_, ?_, rfl⟩
  · intro b; cases b <;> rfl
  · intro n
    by_cases hn : n = 0 <;> simp [renderData, isTruthy, isTypeofObject, hn]
  · intro s
    cases s <;> simp [renderData, isTruthy, isTypeofObject]
  · intro items h
    simp only [renderData, isTruthy] at h
    revert h
    simp only [Bool.not_true, Bool.false_eq_true, if_false]
    cases objectKeys (firstOrEmpty items) <;> cases bodyRows items <;> simp
  · intro entries h
    simp [renderData, isTruthy, isTypeofObject, objectEntries] at h

/-- C10 (as stated) fails: for the sequence payload `["ab"]`, whose first
element is a string, the header has the two columns `0` and `1` (the index
keys of the string), not zero columns. -/
theorem string_first_element_has_index_columns :
    renderData asciiUpper (.arr [.str (utf16 "ab")]) =
      .ok (.recordList [utf16 "0", utf16 "1"]
        [[.str (utf16 "a"), .str (utf16 "b")]]) ∧
    ¬ ∃ rows, renderData asciiUpper (.arr [.str (utf16 "ab")]) =
      .ok (.recordList [] rows) := by
  have e : renderData asciiUpper (.arr [.str (utf16 "ab")]) =
      .ok (.recordList [utf16 "0", utf16 "1"]
        [[.str (utf16 "a"), .str (utf16 "b")]]) := rfl
  refine ⟨e, ?_⟩
  rintro ⟨rows, h⟩
  rw [e] at h
  simp at h

/-- C10 (as amended): for a sequence payload with no `null` or `undefined`
element whose first element is not a mapping, the header has one column per
index key of the first element: none for a number, a boolean, the empty string
or an empty nested sequence, and the labels of `0`, ..., `n-1` for a string or
a nested sequence of length `n`. -/
theorem non_mapping_first_element_columns (upper : JsString → JsString)
    (x : JsValue) (rest : List JsValue) (hm : isMapping x = false)
    (h : ∀ y ∈ x :: rest, isNullish y = false) :
    renderData upper (.arr (x :: rest)) =
      .ok (.recordList ((indexKeys (indexCount x)).map (label upper))
        ((x :: rest).map ownValues)) ∧
    ((indexKeys (indexCount x)).map (label upper)).length = indexCount x ∧
    (indexCount x = 0 → renderData upper (.arr (x :: rest)) =
      .ok (.recordList [] ((x :: rest).map ownValues))) := by
  have e := renderData_arr upper (x :: rest) h
  rw [ownKeys_firstOrEmpty_of_not_mapping x rest hm] at e
  refine ⟨e, by simp [indexKeys_length], ?_⟩
  intro h0
  rw [e, h0]
  rfl

theorem non_mapping_first_element_columns_witness :
    isMapping (.num 7) = false ∧
    (∀ y ∈ [JsValue.num 7, JsValue.str (utf16 "ab")], isNullish y = false) ∧
    renderData asciiUpper (.arr [.num 7, .str (utf16 "ab")]) =
      .ok (.recordList [] ([JsValue.num 7, JsValue.str (utf16 "ab")].map ownValues)) :=
  have h : ∀ y ∈ [JsValue.num 7, JsValue.str (utf16 "ab")], isNullish y = false := by
    intro y hy
    simp only [List.mem_cons, List.mem_singleton, List.not_mem_nil, or_false] at hy
    rcases hy with rfl | rfl <;> rfl
  ⟨rfl, h,
   (non_mapping_first_element_columns asciiUpper (.num 7) [.str (utf16 "ab")] rfl h).2.2
     rfl⟩

end Chatbot
